import Mathlib

/-!
Verification of the FPU State Guard of `rts/System/Sync/FPUCheck.cpp`.

The guard `good_fpu_control_registers(text)` reads the thread's floating-point
environment through streflop, masks the control words against the reserved-bit
masks (`0xFF80` for MXCSR, `0x1F3F` for the x87 control word), compares them
against two accepted per-build-configuration profiles, and on mismatch emits
warning log lines and resets the mode to `streflop::Simple`.

The embedding below models the guard as a pure function from the captured
environment to a trace of external actions (read, log, set-mode,
raise-exceptions) together with the resulting environment.  Control words are
16-bit register values; the `%04X` format of the source therefore always
renders exactly four uppercase hex digits, which `hex4` reproduces.

Build-configuration flags:
  * `supportSnan` models `defined(__SUPPORT_SNAN__) && !defined(USE_GML)`;
  * the two register layouts (`STREFLOP_SSE` vs `STREFLOP_X87`) are embedded
    as the two functions `good_fpu_control_registers_sse` and
    `good_fpu_control_registers_x87`.
-/

namespace FPUCheck

/-- Build configuration: `supportSnan` is the preprocessor condition
`defined(__SUPPORT_SNAN__) && !defined(USE_GML)` of the source. -/
structure BuildConfig where
  supportSnan : Bool
deriving DecidableEq

/-- Accepted SSE profile A, from the `#if`-selected constants of
`good_fpu_control_registers`. -/
def sse_a (c : BuildConfig) : Nat :=
  if c.supportSnan then 0x1937 &&& 0xFF80 else 0x1D00

/-- Accepted SSE profile B. -/
def sse_b (c : BuildConfig) : Nat :=
  if c.supportSnan then 0x1925 &&& 0xFF80 else 0x1F80

/-- Accepted x87 profile A. -/
def x87_a (c : BuildConfig) : Nat :=
  if c.supportSnan then 0x0072 &&& 0x1F3F else 0x003A

/-- Accepted x87 profile B.  In the source the SNaN branch writes the plain
constant `0x003F` (not masked). -/
def x87_b (c : BuildConfig) : Nat :=
  if c.supportSnan then 0x003F else 0x003F

/-- Captured floating-point environment in the combined (`STREFLOP_SSE`)
layout: `streflop::fpenv_t` is a struct of the MXCSR and x87 control words,
each a 16-bit register value. -/
structure SSEEnv where
  sse_mode : Nat
  x87_mode : Nat
deriving DecidableEq

/-- The x87-exception flags passed to `feraiseexcept` by the guard. -/
inductive FPUExcFlag where
  | FE_INVALID
  | FE_DIVBYZERO
  | FE_OVERFLOW
deriving DecidableEq

/-- External actions performed by the guard, in order. -/
inductive GuardAction where
  | fegetenv
  | logWarning (line : String)
  | setSimpleMode
  | feraiseexcept (flags : List FPUExcFlag)
deriving DecidableEq

/-- Uppercase hexadecimal digit for a nibble value. -/
def hexDigit (n : Nat) : Char :=
  if n < 10 then Char.ofNat (48 + n) else Char.ofNat (55 + n)

/-- Rendering of a 16-bit value by `%04X`: exactly four uppercase hex
digits. -/
def hex4 (n : Nat) : String :=
  String.mk [hexDigit (n / 4096 % 16), hexDigit (n / 256 % 16),
             hexDigit (n / 16 % 16), hexDigit (n % 16)]

/-- The SSE-field warning line of the combined layout, following the format
string of the source with `__FUNCTION__ = "good_fpu_control_registers"`.
Note the source prints the raw `fenv.sse_mode`, not the masked value. -/
def sseLogLine (text : String) (v a b : Nat) : String :=
  "[good_fpu_control_registers] Sync warning: (env.sse_mode) MXCSR 0x"
    ++ hex4 v ++ " instead of 0x" ++ hex4 a ++ " or 0x" ++ hex4 b
    ++ " (\"" ++ text ++ "\")"

/-- The x87-field warning line of the combined layout. -/
def x87LogLine (text : String) (v a b : Nat) : String :=
  "[good_fpu_control_registers] Sync warning: (env.x87_mode) FPUCW 0x"
    ++ hex4 v ++ " instead of 0x" ++ hex4 a ++ " or 0x" ++ hex4 b
    ++ " (\"" ++ text ++ "\")"

/-- The warning line of the legacy (`STREFLOP_X87`) layout. -/
def legacyLogLine (text : String) (v a b : Nat) : String :=
  "[good_fpu_control_registers] Sync warning: FPUCW 0x"
    ++ hex4 v ++ " instead of 0x" ++ hex4 a ++ " or 0x" ++ hex4 b
    ++ " (\"" ++ text ++ "\")"

/-- The `ret` expression of the combined layout: both masked control words
must lie in their accepted sets. -/
def sse_ret (c : BuildConfig) (fenv : SSEEnv) : Bool :=
  ((fenv.sse_mode &&& 0xFF80) == sse_a c || (fenv.sse_mode &&& 0xFF80) == sse_b c) &&
  ((fenv.x87_mode &&& 0x1F3F) == x87_a c || (fenv.x87_mode &&& 0x1F3F) == x87_b c)

/-- The `ret` expression of the legacy layout: `fenv` is the bare x87 control
word (`short int`). -/
def x87_ret (c : BuildConfig) (fenv : Nat) : Bool :=
  (fenv &&& 0x1F3F) == x87_a c || (fenv &&& 0x1F3F) == x87_b c

/-- Modelled from the spec: the environment established by
`streflop_init<streflop::Simple>()`, whose implementation lives in
`lib/streflop` (outside `src/`).  The spec states that invoking the
reduced-precision ("Simple") mode itself satisfies the acceptance check by
construction; profile B is the control-word pair used by the engine outside
the simulation step, so the reset lands on it. -/
def simpleModeSSEEnv (c : BuildConfig) : SSEEnv :=
  ⟨sse_b c, x87_b c⟩

/-- Modelled from the spec: legacy-layout analogue of `simpleModeSSEEnv`. -/
def simpleModeX87Env (c : BuildConfig) : Nat :=
  x87_b c

/-- The combined-layout (`STREFLOP_SSE`) body of `good_fpu_control_registers`:
returns the trace of external actions and the environment in effect after the
call. -/
def good_fpu_control_registers_sse (c : BuildConfig) (text : String)
    (fenv : SSEEnv) : List GuardAction × SSEEnv :=
  let ret := sse_ret c fenv
  if ret then
    ([GuardAction.fegetenv], fenv)
  else
    (GuardAction.fegetenv ::
       GuardAction.logWarning (sseLogLine text fenv.sse_mode (sse_a c) (sse_b c)) ::
       GuardAction.logWarning (x87LogLine text fenv.x87_mode (x87_a c) (x87_b c)) ::
       GuardAction.setSimpleMode ::
       (if c.supportSnan then
          [GuardAction.feraiseexcept
            [FPUExcFlag.FE_INVALID, FPUExcFlag.FE_DIVBYZERO, FPUExcFlag.FE_OVERFLOW]]
        else []),
     simpleModeSSEEnv c)

/-- The legacy-layout (`STREFLOP_X87`) body of `good_fpu_control_registers`. -/
def good_fpu_control_registers_x87 (c : BuildConfig) (text : String)
    (fenv : Nat) : List GuardAction × Nat :=
  let ret := x87_ret c fenv
  if ret then
    ([GuardAction.fegetenv], fenv)
  else
    (GuardAction.fegetenv ::
       GuardAction.logWarning (legacyLogLine text fenv (x87_a c) (x87_b c)) ::
       GuardAction.setSimpleMode ::
       (if c.supportSnan then
          [GuardAction.feraiseexcept
            [FPUExcFlag.FE_INVALID, FPUExcFlag.FE_DIVBYZERO, FPUExcFlag.FE_OVERFLOW]]
        else []),
     simpleModeX87Env c)

/-- Test whether an action is a warning-log emission. -/
def isLogAction : GuardAction → Bool
  | GuardAction.logWarning _ => true
  | _ => false

/-- Test whether an action is the reduced-precision mode reset. -/
def isSetModeAction : GuardAction → Bool
  | GuardAction.setSimpleMode => true
  | _ => false

/-- Test whether an action raises floating-point exceptions. -/
def isRaiseAction : GuardAction → Bool
  | GuardAction.feraiseexcept _ => true
  | _ => false

/-- Test whether an action reads the floating-point environment. -/
def isReadAction : GuardAction → Bool
  | GuardAction.fegetenv => true
  | _ => false

/-- Number of warning log lines in a trace. -/
def logCount (tr : List GuardAction) : Nat :=
  tr.countP (fun a => isLogAction a)

/-- The lines of the warning logs of a trace, in order. -/
def logLines : List GuardAction → List String
  | [] => []
  | GuardAction.logWarning s :: tr => s :: logLines tr
  | _ :: tr => logLines tr

/-- Whether the first character list begins the second. -/
def isLeadOf : List Char → List Char → Bool
  | [], _ => true
  | _ :: _, [] => false
  | a :: as, b :: bs => a == b && isLeadOf as bs

/-- Whether the first character list occurs contiguously inside the second. -/
def occursIn : List Char → List Char → Bool
  | ns, [] => ns.isEmpty
  | ns, h :: t => isLeadOf ns (h :: t) || occursIn ns t

/-- Substring relation on strings, as a computation. -/
def strHas (s sub : String) : Bool :=
  occursIn sub.data s.data


/-- Exception-flag sets raised along a trace, in order. -/
def raisedSets : List GuardAction → List (List FPUExcFlag)
  | [] => []
  | GuardAction.feraiseexcept f :: tr => f :: raisedSets tr
  | _ :: tr => raisedSets tr

/-- The mode-reset and exception-raising actions of a trace, in order. -/
def correctiveActions (tr : List GuardAction) : List GuardAction :=
  tr.filter (fun a => isSetModeAction a || isRaiseAction a)

/-- Spec-side validity predicate for the combined layout, written from the
spec's words for comparison with the code-side `sse_ret`. -/
def specValidSSE (c : BuildConfig) (fenv : SSEEnv) : Prop :=
  ((fenv.sse_mode &&& 0xFF80) = sse_a c ∨ (fenv.sse_mode &&& 0xFF80) = sse_b c) ∧
  ((fenv.x87_mode &&& 0x1F3F) = x87_a c ∨ (fenv.x87_mode &&& 0x1F3F) = x87_b c)

/-- Spec-side validity predicate for the legacy layout. -/
def specValidX87 (c : BuildConfig) (fenv : Nat) : Prop :=
  (fenv &&& 0x1F3F) = x87_a c ∨ (fenv &&& 0x1F3F) = x87_b c

theorem isLeadOf_append_self (xs ys : List Char) : isLeadOf xs (xs ++ ys) = true := by
  induction xs with
  | nil => rfl
  | cons a as ih => simp [isLeadOf, ih]

theorem occursIn_of_isLeadOf (ns l : List Char) (h : isLeadOf ns l = true) :
    occursIn ns l = true := by
  cases l with
  | nil => cases ns with
    | nil => rfl
    | cons a as => simp [isLeadOf] at h
  | cons a t => simp [occursIn, h]

theorem occursIn_append_right (ns l1 l2 : List Char) (h : occursIn ns l2 = true) :
    occursIn ns (l1 ++ l2) = true := by
  induction l1 with
  | nil => simpa using h
  | cons a t ih => simp [occursIn, ih]

theorem strHas_parts (pre sub post : String) : strHas (pre ++ sub ++ post) sub = true := by
  unfold strHas
  simp only [String.data_append, List.append_assoc]
  apply occursIn_append_right
  apply occursIn_of_isLeadOf
  exact isLeadOf_append_self _ _

/-- Validity of the Simple-mode environment (needed for idempotence). -/
theorem sse_ret_simpleMode (c : BuildConfig) : sse_ret c (simpleModeSSEEnv c) = true := by
  obtain ⟨s⟩ := c; cases s <;> decide

theorem x87_ret_simpleMode (c : BuildConfig) : x87_ret c (simpleModeX87Env c) = true := by
  obtain ⟨s⟩ := c; cases s <;> decide

/-- C1: an environment is classified valid exactly when each field's masked value lies in
that field's own accepted set - combined layout: `(sse &&& 0xFF80)` in `\x7bsse_a, sse_b\x7d`
and `(x87 &&& 0x1F3F)` in `\x7bx87_a, x87_b\x7d`; legacy layout: the x87 check alone.  The
two sub-checks are independent: mixing profile A's SSE value with profile B's x87 value is
still valid. -/
theorem valid_iff_masked_in_accepted_sets (c : BuildConfig) (fenv : SSEEnv) (x : Nat) :
    (sse_ret c fenv = true ↔ specValidSSE c fenv) ∧
    (x87_ret c x = true ↔ specValidX87 c x) ∧
    sse_ret c { sse_mode := sse_a c, x87_mode := x87_b c } = true := by
  refine ⟨?_, ?_, ?_⟩
  · simp [sse_ret, specValidSSE, Bool.and_eq_true, Bool.or_eq_true, beq_iff_eq]
  · simp [x87_ret, specValidX87, Bool.or_eq_true, beq_iff_eq]
  · obtain ⟨s⟩ := c; cases s <;> decide

/-- C2 counterexample: at SSE `0x1900` (invalid) and x87 `0x003A` (valid) in a non-strict
combined-layout build, the guard emits two warning lines, not one, and one of them
references the x87 field even though the x87 field is valid. -/
theorem single_field_failure_logs_two_lines_cex :
    logCount (good_fpu_control_registers_sse ⟨false⟩ "test" ⟨0x1900, 0x003A⟩).1 = 2 ∧
    (logCount (good_fpu_control_registers_sse ⟨false⟩ "test" ⟨0x1900, 0x003A⟩).1 = 1 → False) ∧
    ((logLines (good_fpu_control_registers_sse ⟨false⟩ "test" ⟨0x1900, 0x003A⟩).1).any
      (fun s => strHas s "(env.x87_mode) FPUCW") = true) := by
  refine ⟨rfl, by decide, by decide⟩

/-- C2 amended: in the combined layout, whenever the environment is classified invalid -
including when exactly one field's masked value is outside its accepted set - the guard
emits exactly two warning lines, one for the SSE field and one for the x87 field, both
unconditionally. -/
theorem invalid_combined_env_logs_both_fields (c : BuildConfig) (text : String)
    (fenv : SSEEnv) (h : sse_ret c fenv = false) :
    logCount (good_fpu_control_registers_sse c text fenv).1 = 2 ∧
    logLines (good_fpu_control_registers_sse c text fenv).1 =
      [sseLogLine text fenv.sse_mode (sse_a c) (sse_b c),
       x87LogLine text fenv.x87_mode (x87_a c) (x87_b c)] := by
  unfold good_fpu_control_registers_sse
  rw [h]
  cases hc : c.supportSnan <;>
    simp [hc, logCount, logLines, List.countP, List.countP.go, isLogAction]

/-- Witness for C2's amended theorem at the claim's concrete input. -/
theorem invalid_combined_env_logs_both_fields_witness :
    sse_ret ⟨false⟩ ⟨0x1900, 0x003A⟩ = false ∧
    logCount (good_fpu_control_registers_sse ⟨false⟩ "CGame::SimFrame" ⟨0x1900, 0x003A⟩).1 = 2 ∧
    logLines (good_fpu_control_registers_sse ⟨false⟩ "CGame::SimFrame" ⟨0x1900, 0x003A⟩).1 =
      [sseLogLine "CGame::SimFrame" 0x1900 0x1D00 0x1F80,
       x87LogLine "CGame::SimFrame" 0x003A 0x003A 0x003F] :=
  ⟨by decide,
   invalid_combined_env_logs_both_fields ⟨false⟩ "CGame::SimFrame" ⟨0x1900, 0x003A⟩ (by decide)⟩


/-- C3: for every environment classified valid, the guard returns after the environment
read with no further side effects - zero log lines, no mode reset, no exceptions raised,
and the environment left unchanged - in both layouts. -/
theorem valid_env_no_side_effects (c : BuildConfig) (text : String) (fenv : SSEEnv) (x : Nat)
    (h1 : sse_ret c fenv = true) (h2 : x87_ret c x = true) :
    good_fpu_control_registers_sse c text fenv = ([GuardAction.fegetenv], fenv) ∧
    good_fpu_control_registers_x87 c text x = ([GuardAction.fegetenv], x) ∧
    logCount (good_fpu_control_registers_sse c text fenv).1 = 0 ∧
    logCount (good_fpu_control_registers_x87 c text x).1 = 0 ∧
    correctiveActions (good_fpu_control_registers_sse c text fenv).1 = [] ∧
    correctiveActions (good_fpu_control_registers_x87 c text x).1 = [] := by
  unfold good_fpu_control_registers_sse good_fpu_control_registers_x87
  rw [h1, h2]
  simp [logCount, logLines, correctiveActions, List.countP, List.countP.go, isLogAction,
        isSetModeAction, isRaiseAction, List.filter]

/-- Witness for C3 at the claim's concrete inputs. -/
theorem valid_env_no_side_effects_witness :
    sse_ret ⟨false⟩ ⟨0x1F80, 0x003F⟩ = true ∧ x87_ret ⟨false⟩ 0x003A = true ∧
    good_fpu_control_registers_sse ⟨false⟩ "lbl" ⟨0x1F80, 0x003F⟩ =
      ([GuardAction.fegetenv], ⟨0x1F80, 0x003F⟩) ∧
    good_fpu_control_registers_x87 ⟨false⟩ "lbl" 0x003A = ([GuardAction.fegetenv], 0x003A) :=
  ⟨by decide, by decide,
   (valid_env_no_side_effects ⟨false⟩ "lbl" ⟨0x1F80, 0x003F⟩ 0x003A (by decide) (by decide)).1,
   (valid_env_no_side_effects ⟨false⟩ "lbl" ⟨0x1F80, 0x003F⟩ 0x003A (by decide) (by decide)).2.1⟩

/-- C4: for every environment classified invalid, the guard sets the floating-point mode
to the reduced/simple precision profile (exactly one reset in the trace, final
environment the Simple-mode one), and raises exactly the exception set
\x7bFE_INVALID, FE_DIVBYZERO, FE_OVERFLOW\x7d when the build enables strict
signaling-NaN support and no exception set otherwise, in both layouts. -/
theorem invalid_env_reset_and_exceptions (c : BuildConfig) (text : String) (fenv : SSEEnv)
    (x : Nat) (h1 : sse_ret c fenv = false) (h2 : x87_ret c x = false) :
    ((good_fpu_control_registers_sse c text fenv).2 = simpleModeSSEEnv c ∧
     (good_fpu_control_registers_sse c text fenv).1.countP (fun a => isSetModeAction a) = 1 ∧
     raisedSets (good_fpu_control_registers_sse c text fenv).1 =
       (if c.supportSnan then
          [[FPUExcFlag.FE_INVALID, FPUExcFlag.FE_DIVBYZERO, FPUExcFlag.FE_OVERFLOW]]
        else [])) ∧
    ((good_fpu_control_registers_x87 c text x).2 = simpleModeX87Env c ∧
     (good_fpu_control_registers_x87 c text x).1.countP (fun a => isSetModeAction a) = 1 ∧
     raisedSets (good_fpu_control_registers_x87 c text x).1 =
       (if c.supportSnan then
          [[FPUExcFlag.FE_INVALID, FPUExcFlag.FE_DIVBYZERO, FPUExcFlag.FE_OVERFLOW]]
        else [])) := by
  unfold good_fpu_control_registers_sse good_fpu_control_registers_x87
  rw [h1, h2]
  cases hc : c.supportSnan <;>
    simp [hc, raisedSets, List.countP, List.countP.go, isSetModeAction]

/-- Witness for C4 in the strict signaling-NaN configuration. -/
theorem invalid_env_reset_and_exceptions_witness :
    sse_ret ⟨true⟩ ⟨0, 0⟩ = false ∧ x87_ret ⟨true⟩ 0 = false ∧
    (good_fpu_control_registers_sse ⟨true⟩ "lbl" ⟨0, 0⟩).2 = simpleModeSSEEnv ⟨true⟩ ∧
    raisedSets (good_fpu_control_registers_sse ⟨true⟩ "lbl" ⟨0, 0⟩).1 =
      [[FPUExcFlag.FE_INVALID, FPUExcFlag.FE_DIVBYZERO, FPUExcFlag.FE_OVERFLOW]] :=
  ⟨by decide, by decide,
   ((invalid_env_reset_and_exceptions ⟨true⟩ "lbl" ⟨0, 0⟩ 0 (by decide) (by decide)).1).1,
   by
     have h := ((invalid_env_reset_and_exceptions ⟨true⟩ "lbl" ⟨0, 0⟩ 0
       (by decide) (by decide)).1).2.2
     simpa using h⟩


/-- C5 counterexample: in the legacy layout with x87 control word `0x833F` (masked value
`0x033F`, invalid), the single warning line shows the raw value `0x833F` and does not
contain the masked value `0x033F`, refuting the claim that each line contains the actual
masked value of the field. -/
theorem log_contains_masked_value_cex :
    x87_ret ⟨false⟩ 0x833F = false ∧
    (0x833F &&& 0x1F3F) = 0x033F ∧
    logLines (good_fpu_control_registers_x87 ⟨false⟩ "test" 0x833F).1 =
      [legacyLogLine "test" 0x833F 0x003A 0x003F] ∧
    strHas (legacyLogLine "test" 0x833F 0x003A 0x003F) "0x033F" = false ∧
    strHas (legacyLogLine "test" 0x833F 0x003A 0x003F) "0x833F" = true := by
  refine ⟨by decide, by decide, rfl, by decide, by decide⟩

/-- C5 amended: for every invalid environment, each warning line contains the call-site
label, the field name, the raw (unmasked) value of that field, and the two accepted
values, rendered as fixed-width 4-hex-digit values, in both layouts. -/
theorem invalid_env_log_contents (c : BuildConfig) (text : String) (x : Nat)
    (fenv : SSEEnv) (h : x87_ret c x = false) (hs : sse_ret c fenv = false) :
    (logLines (good_fpu_control_registers_x87 c text x).1 =
      [legacyLogLine text x (x87_a c) (x87_b c)] ∧
     strHas (legacyLogLine text x (x87_a c) (x87_b c)) text = true ∧
     strHas (legacyLogLine text x (x87_a c) (x87_b c)) "FPUCW" = true ∧
     strHas (legacyLogLine text x (x87_a c) (x87_b c)) ("0x" ++ hex4 x) = true ∧
     strHas (legacyLogLine text x (x87_a c) (x87_b c)) ("0x" ++ hex4 (x87_a c)) = true ∧
     strHas (legacyLogLine text x (x87_a c) (x87_b c)) ("0x" ++ hex4 (x87_b c)) = true) ∧
    (logLines (good_fpu_control_registers_sse c text fenv).1 =
      [sseLogLine text fenv.sse_mode (sse_a c) (sse_b c),
       x87LogLine text fenv.x87_mode (x87_a c) (x87_b c)] ∧
     strHas (sseLogLine text fenv.sse_mode (sse_a c) (sse_b c)) "MXCSR" = true ∧
     strHas (sseLogLine text fenv.sse_mode (sse_a c) (sse_b c))
       ("0x" ++ hex4 fenv.sse_mode) = true ∧
     strHas (x87LogLine text fenv.x87_mode (x87_a c) (x87_b c))
       ("0x" ++ hex4 fenv.x87_mode) = true) ∧
    (hex4 x).length = 4 ∧ (hex4 (x87_a c)).length = 4 ∧ (hex4 (x87_b c)).length = 4 := by
  refine ⟨⟨?_, ?_, ?_, ?_, ?_, ?_⟩, ⟨?_, ?_, ?_, ?_⟩, ?_, ?_, ?_⟩
  · unfold good_fpu_control_registers_x87
    rw [h]
    cases hc : c.supportSnan <;> simp [hc, logLines]
  · have hsplit : legacyLogLine text x (x87_a c) (x87_b c) =
        ("[good_fpu_control_registers] Sync warning: FPUCW 0x" ++ hex4 x ++ " instead of 0x"
          ++ hex4 (x87_a c) ++ " or 0x" ++ hex4 (x87_b c) ++ " (\"") ++ text ++ "\")" := by
      apply String.ext
      simp [legacyLogLine, String.data_append]
    rw [hsplit]
    exact strHas_parts _ _ _
  · have hsplit : legacyLogLine text x (x87_a c) (x87_b c) =
        "[good_fpu_control_registers] Sync warning: " ++ "FPUCW" ++ (" 0x" ++ hex4 x
          ++ " instead of 0x" ++ hex4 (x87_a c) ++ " or 0x" ++ hex4 (x87_b c)
          ++ " (\"" ++ text ++ "\")") := by
      apply String.ext
      simp [legacyLogLine, String.data_append]
    rw [hsplit]
    exact strHas_parts _ _ _
  · have hsplit : legacyLogLine text x (x87_a c) (x87_b c) =
        "[good_fpu_control_registers] Sync warning: FPUCW " ++ ("0x" ++ hex4 x)
          ++ (" instead of 0x" ++ hex4 (x87_a c) ++ " or 0x" ++ hex4 (x87_b c)
          ++ " (\"" ++ text ++ "\")") := by
      apply String.ext
      simp [legacyLogLine, String.data_append]
    rw [hsplit]
    exact strHas_parts _ _ _
  · have hsplit : legacyLogLine text x (x87_a c) (x87_b c) =
        ("[good_fpu_control_registers] Sync warning: FPUCW 0x" ++ hex4 x ++ " instead of ")
          ++ ("0x" ++ hex4 (x87_a c)) ++ (" or 0x" ++ hex4 (x87_b c)
          ++ " (\"" ++ text ++ "\")") := by
      apply String.ext
      simp [legacyLogLine, String.data_append]
    rw [hsplit]
    exact strHas_parts _ _ _
  · have hsplit : legacyLogLine text x (x87_a c) (x87_b c) =
        ("[good_fpu_control_registers] Sync warning: FPUCW 0x" ++ hex4 x ++ " instead of 0x"
          ++ hex4 (x87_a c) ++ " or ") ++ ("0x" ++ hex4 (x87_b c))
          ++ (" (\"" ++ text ++ "\")") := by
      apply String.ext
      simp [legacyLogLine, String.data_append]
    rw [hsplit]
    exact strHas_parts _ _ _
  · unfold good_fpu_control_registers_sse
    rw [hs]
    cases hc : c.supportSnan <;> simp [hc, logLines]
  · have hsplit : sseLogLine text fenv.sse_mode (sse_a c) (sse_b c) =
        "[good_fpu_control_registers] Sync warning: (env.sse_mode) " ++ "MXCSR"
          ++ (" 0x" ++ hex4 fenv.sse_mode ++ " instead of 0x" ++ hex4 (sse_a c)
          ++ " or 0x" ++ hex4 (sse_b c) ++ " (\"" ++ text ++ "\")") := by
      apply String.ext
      simp [sseLogLine, String.data_append]
    rw [hsplit]
    exact strHas_parts _ _ _
  · have hsplit : sseLogLine text fenv.sse_mode (sse_a c) (sse_b c) =
        "[good_fpu_control_registers] Sync warning: (env.sse_mode) MXCSR "
          ++ ("0x" ++ hex4 fenv.sse_mode) ++ (" instead of 0x" ++ hex4 (sse_a c)
          ++ " or 0x" ++ hex4 (sse_b c) ++ " (\"" ++ text ++ "\")") := by
      apply String.ext
      simp [sseLogLine, String.data_append]
    rw [hsplit]
    exact strHas_parts _ _ _
  · have hsplit : x87LogLine text fenv.x87_mode (x87_a c) (x87_b c) =
        "[good_fpu_control_registers] Sync warning: (env.x87_mode) FPUCW "
          ++ ("0x" ++ hex4 fenv.x87_mode) ++ (" instead of 0x" ++ hex4 (x87_a c)
          ++ " or 0x" ++ hex4 (x87_b c) ++ " (\"" ++ text ++ "\")") := by
      apply String.ext
      simp [x87LogLine, String.data_append]
    rw [hsplit]
    exact strHas_parts _ _ _
  · rfl
  · rfl
  · rfl

/-- Witness for C5's amended theorem at the spec's concrete scenario `0x033F`. -/
theorem invalid_env_log_contents_witness :
    x87_ret ⟨false⟩ 0x033F = false ∧ sse_ret ⟨false⟩ ⟨0x1900, 0x033F⟩ = false ∧
    logLines (good_fpu_control_registers_x87 ⟨false⟩ "test" 0x033F).1 =
      [legacyLogLine "test" 0x033F 0x003A 0x003F] ∧
    strHas (legacyLogLine "test" 0x033F 0x003A 0x003F) "0x033F" = true ∧
    strHas (legacyLogLine "test" 0x033F 0x003A 0x003F) "0x003A" = true ∧
    strHas (legacyLogLine "test" 0x033F 0x003A 0x003F) "0x003F" = true :=
  ⟨by decide, by decide,
   (invalid_env_log_contents ⟨false⟩ "test" 0x033F ⟨0x1900, 0x033F⟩
      (by decide) (by decide)).1.1,
   (invalid_env_log_contents ⟨false⟩ "test" 0x033F ⟨0x1900, 0x033F⟩
      (by decide) (by decide)).1.2.2.2.1,
   (invalid_env_log_contents ⟨false⟩ "test" 0x033F ⟨0x1900, 0x033F⟩
      (by decide) (by decide)).1.2.2.2.2.1,
   (invalid_env_log_contents ⟨false⟩ "test" 0x033F ⟨0x1900, 0x033F⟩
      (by decide) (by decide)).1.2.2.2.2.2⟩


/-- C6: after the guard performs a correction, an immediately following call classifies
the resulting environment as valid and performs no further log or reset, in both
layouts - the Simple-mode control state satisfies the acceptance check by construction. -/
theorem correction_idempotent (c : BuildConfig) (t1 t2 : String) (fenv : SSEEnv) (x : Nat)
    (h1 : sse_ret c fenv = false) (h2 : x87_ret c x = false) :
    good_fpu_control_registers_sse c t2 ((good_fpu_control_registers_sse c t1 fenv).2) =
      ([GuardAction.fegetenv], (good_fpu_control_registers_sse c t1 fenv).2) ∧
    good_fpu_control_registers_x87 c t2 ((good_fpu_control_registers_x87 c t1 x).2) =
      ([GuardAction.fegetenv], (good_fpu_control_registers_x87 c t1 x).2) := by
  have e1 : (good_fpu_control_registers_sse c t1 fenv).2 = simpleModeSSEEnv c := by
    unfold good_fpu_control_registers_sse
    rw [h1]
    simp
  have e2 : (good_fpu_control_registers_x87 c t1 x).2 = simpleModeX87Env c := by
    unfold good_fpu_control_registers_x87
    rw [h2]
    simp
  rw [e1, e2]
  constructor
  · unfold good_fpu_control_registers_sse
    rw [sse_ret_simpleMode]
    simp
  · unfold good_fpu_control_registers_x87
    rw [x87_ret_simpleMode]
    simp

/-- Witness for C6 at concrete invalid environments. -/
theorem correction_idempotent_witness :
    sse_ret ⟨false⟩ ⟨0x0000, 0x033F⟩ = false ∧ x87_ret ⟨false⟩ 0x033F = false ∧
    good_fpu_control_registers_sse ⟨false⟩ "b"
        ((good_fpu_control_registers_sse ⟨false⟩ "a" ⟨0x0000, 0x033F⟩).2) =
      ([GuardAction.fegetenv], (good_fpu_control_registers_sse ⟨false⟩ "a" ⟨0x0000, 0x033F⟩).2) ∧
    good_fpu_control_registers_x87 ⟨false⟩ "b"
        ((good_fpu_control_registers_x87 ⟨false⟩ "a" 0x033F).2) =
      ([GuardAction.fegetenv], (good_fpu_control_registers_x87 ⟨false⟩ "a" 0x033F).2) :=
  ⟨by decide, by decide,
   (correction_idempotent ⟨false⟩ "a" "b" ⟨0x0000, 0x033F⟩ 0x033F (by decide) (by decide)).1,
   (correction_idempotent ⟨false⟩ "a" "b" ⟨0x0000, 0x033F⟩ 0x033F (by decide) (by decide)).2⟩

/-- C7: the accepted-profile constants are exactly those of the spec - with strict
signaling-NaN support `0x1937 &&& 0xFF80`, `0x1925 &&& 0xFF80`, `0x0072 &&& 0x1F3F` and
`0x003F`, evaluating to `0x1900`, `0x1900`, `0x0032`, `0x003F`; without it the direct
constants `0x1D00`, `0x1F80`, `0x003A`, `0x003F`. -/
theorem accepted_profile_constants :
    sse_a ⟨true⟩ = (0x1937 &&& 0xFF80) ∧ sse_b ⟨true⟩ = (0x1925 &&& 0xFF80) ∧
    x87_a ⟨true⟩ = (0x0072 &&& 0x1F3F) ∧ x87_b ⟨true⟩ = (0x003F &&& 0x1F3F) ∧
    sse_a ⟨true⟩ = 0x1900 ∧ sse_b ⟨true⟩ = 0x1900 ∧
    x87_a ⟨true⟩ = 0x0032 ∧ x87_b ⟨true⟩ = 0x003F ∧
    sse_a ⟨false⟩ = 0x1D00 ∧ sse_b ⟨false⟩ = 0x1F80 ∧
    x87_a ⟨false⟩ = 0x003A ∧ x87_b ⟨false⟩ = 0x003F := by
  decide

/-- C8 counterexample: in the strict signaling-NaN configuration the two accepted SSE
values are not bitwise distinct - both `0x1937 &&& 0xFF80` and `0x1925 &&& 0xFF80`
evaluate to `0x1900`. -/
theorem distinct_profiles_cex :
    sse_a ⟨true⟩ = sse_b ⟨true⟩ ∧ sse_a ⟨true⟩ = 0x1900 := by
  decide

/-- C8 amended: in the non-strict configuration the two accepted values of each family
are bitwise distinct, and in the strict signaling-NaN configuration the two x87 values
are distinct but the two SSE values coincide. -/
theorem distinct_profiles_amended :
    sse_a ⟨false⟩ ≠ sse_b ⟨false⟩ ∧ x87_a ⟨false⟩ ≠ x87_b ⟨false⟩ ∧
    x87_a ⟨true⟩ ≠ x87_b ⟨true⟩ ∧ sse_a ⟨true⟩ = sse_b ⟨true⟩ := by
  decide

/-- C9: for every label and environment and in both layouts, the guard returns normally
with a finite action trace that begins with the single environment read, contains at most
one mode reset, and never re-reads the environment after the initial read - so it never
re-verifies after the reset within the same call. -/
theorem guard_returns_normally_single_reset (c : BuildConfig) (text : String)
    (fenv : SSEEnv) (x : Nat) :
    ((good_fpu_control_registers_sse c text fenv).1.head? = some GuardAction.fegetenv ∧
     (good_fpu_control_registers_sse c text fenv).1.countP (fun a => isReadAction a) = 1 ∧
     (good_fpu_control_registers_sse c text fenv).1.countP (fun a => isSetModeAction a) ≤ 1 ∧
     (∀ a ∈ (good_fpu_control_registers_sse c text fenv).1.tail, isReadAction a = false)) ∧
    ((good_fpu_control_registers_x87 c text x).1.head? = some GuardAction.fegetenv ∧
     (good_fpu_control_registers_x87 c text x).1.countP (fun a => isReadAction a) = 1 ∧
     (good_fpu_control_registers_x87 c text x).1.countP (fun a => isSetModeAction a) ≤ 1 ∧
     (∀ a ∈ (good_fpu_control_registers_x87 c text x).1.tail, isReadAction a = false)) := by
  unfold good_fpu_control_registers_sse good_fpu_control_registers_x87
  cases h1 : sse_ret c fenv <;> cases h2 : x87_ret c x <;>
    cases hc : c.supportSnan <;>
      simp [hc, List.countP, List.countP.go, isReadAction, isSetModeAction]

/-- C10: any two environments that agree on the architecturally meaningful bits (equal
`sse &&& 0xFF80` and equal `x87 &&& 0x1F3F`, or equal masked x87 word in the legacy
layout) receive the same valid/invalid classification and the same mode-reset and
exception-raising actions: reserved bits never influence whether a correction occurs. -/
theorem reserved_bits_have_no_effect (c : BuildConfig) (t1 t2 : String)
    (e1 e2 : SSEEnv) (x1 x2 : Nat)
    (hs : e1.sse_mode &&& 0xFF80 = e2.sse_mode &&& 0xFF80)
    (hx : e1.x87_mode &&& 0x1F3F = e2.x87_mode &&& 0x1F3F)
    (hl : x1 &&& 0x1F3F = x2 &&& 0x1F3F) :
    sse_ret c e1 = sse_ret c e2 ∧
    correctiveActions (good_fpu_control_registers_sse c t1 e1).1 =
      correctiveActions (good_fpu_control_registers_sse c t2 e2).1 ∧
    x87_ret c x1 = x87_ret c x2 ∧
    correctiveActions (good_fpu_control_registers_x87 c t1 x1).1 =
      correctiveActions (good_fpu_control_registers_x87 c t2 x2).1 := by
  have hr1 : sse_ret c e1 = sse_ret c e2 := by
    unfold sse_ret
    rw [hs, hx]
  have hr2 : x87_ret c x1 = x87_ret c x2 := by
    unfold x87_ret
    rw [hl]
  refine ⟨hr1, ?_, hr2, ?_⟩
  · unfold good_fpu_control_registers_sse
    rw [hr1]
    cases h : sse_ret c e2 <;> cases hc : c.supportSnan <;>
      simp [hc, correctiveActions, List.filter, isSetModeAction, isRaiseAction]
  · unfold good_fpu_control_registers_x87
    rw [hr2]
    cases h : x87_ret c x2 <;> cases hc : c.supportSnan <;>
      simp [hc, correctiveActions, List.filter, isSetModeAction, isRaiseAction]


/-- Witness for C10 at environments differing only in reserved bits. -/
theorem reserved_bits_have_no_effect_witness :
    ((⟨0x1FC0, 0x007A⟩ : SSEEnv).sse_mode &&& 0xFF80 =
       (⟨0x1F80, 0x003A⟩ : SSEEnv).sse_mode &&& 0xFF80) ∧
    ((⟨0x1FC0, 0x007A⟩ : SSEEnv).x87_mode &&& 0x1F3F =
       (⟨0x1F80, 0x003A⟩ : SSEEnv).x87_mode &&& 0x1F3F) ∧
    (0x007A &&& 0x1F3F) = (0x003A &&& 0x1F3F) ∧
    sse_ret ⟨false⟩ ⟨0x1FC0, 0x007A⟩ = sse_ret ⟨false⟩ ⟨0x1F80, 0x003A⟩ ∧
    correctiveActions (good_fpu_control_registers_sse ⟨false⟩ "p" ⟨0x1FC0, 0x007A⟩).1 =
      correctiveActions (good_fpu_control_registers_sse ⟨false⟩ "q" ⟨0x1F80, 0x003A⟩).1 ∧
    x87_ret ⟨false⟩ 0x007A = x87_ret ⟨false⟩ 0x003A ∧
    correctiveActions (good_fpu_control_registers_x87 ⟨false⟩ "p" 0x007A).1 =
      correctiveActions (good_fpu_control_registers_x87 ⟨false⟩ "q" 0x003A).1 :=
  ⟨by decide, by decide, by decide,
   (reserved_bits_have_no_effect ⟨false⟩ "p" "q" ⟨0x1FC0, 0x007A⟩ ⟨0x1F80, 0x003A⟩
      0x007A 0x003A (by decide) (by decide) (by decide)).1,
   (reserved_bits_have_no_effect ⟨false⟩ "p" "q" ⟨0x1FC0, 0x007A⟩ ⟨0x1F80, 0x003A⟩
      0x007A 0x003A (by decide) (by decide) (by decide)).2.1,
   (reserved_bits_have_no_effect ⟨false⟩ "p" "q" ⟨0x1FC0, 0x007A⟩ ⟨0x1F80, 0x003A⟩
      0x007A 0x003A (by decide) (by decide) (by decide)).2.2.1,
   (reserved_bits_have_no_effect ⟨false⟩ "p" "q" ⟨0x1FC0, 0x007A⟩ ⟨0x1F80, 0x003A⟩
      0x007A 0x003A (by decide) (by decide) (by decide)).2.2.2⟩

end FPUCheck
